import Mathlib

/-!
Verification of v_crypt (src/v_crypt/v_crypt.py): a local secret-storage
utility that encrypts string values with a Fernet master key and persists
them in a JSON or YAML mapping file.

The embedding models:
- Python-level exceptions as an error type threaded through Except;
- the cryptography.fernet.Fernet cipher (an external library whose source is
  not part of this repository) from the spec's description of CipherBox:
  authenticated encryption embedding a per-call random nonce, with the
  randomness passed as an explicit parameter, and decryption succeeding
  exactly when the key matches the encrypting key;
- JSON/YAML serialization as the identity on string-keyed dictionaries:
  the filesystem stores dictionaries directly, keyed by path;
- the filesystem as the content of the master-key file secret.txt
  (the functions under verification only ever read it under its default
  name) plus an association list from path to stored dictionary;
- the yaml module as importable (the ImportError branches are not taken).
-/

namespace VCrypt

/-- Python-level exceptions that the modelled code can raise.
integrityError models cryptography.fernet.InvalidToken. -/
inductive PyErr where
  | valueError
  | typeError
  | nameError
  | fileNotFoundError
  | integrityError
  deriving DecidableEq

/-- Modelled from the spec: an EncryptedRecord, the self-describing Fernet
ciphertext for one value. The embedded random nonce is kept explicitly; the
integrity tag is modelled by recording the encrypting key, so that
verification under a key succeeds exactly when that key produced the
record. -/
structure FernetToken where
  nonce : Nat
  keyTag : String
  payload : String
  deriving DecidableEq

/-- Modelled from the spec: a valid Fernet master key is 32 url-safe
base64-encoded bytes, i.e. a 44-character encoded string. -/
def validKey (k : String) : Bool :=
  k.length == 44

/-- Modelled from the spec: the constructor Fernet(password). Passing
Python None raises TypeError (base64 decode of None); a string that is not
a well-formed key raises ValueError; a valid key yields the cipher. -/
def fernetInit : Option String → Except PyErr String
  | none => .error .typeError
  | some k => if validKey k then .ok k else .error .valueError

/-- Modelled from the spec: Fernet encryption embeds a fresh random nonce
per call; the randomness is passed in as the explicit nonce argument. -/
def fernetEncrypt (value : String) (key : String) (nonce : Nat) : FernetToken :=
  { nonce := nonce, keyTag := key, payload := value }

/-- Modelled from the spec: Fernet decryption verifies the integrity tag
and is all-or-nothing: it returns the plaintext when the key matches the
encrypting key and raises InvalidToken (here integrityError) otherwise. -/
def fernetDecrypt (tok : FernetToken) (key : String) : Except PyErr String :=
  if tok.keyTag = key then .ok tok.payload else .error .integrityError

/-- Embeds _encrypt (lines 82-94): builds Fernet(password) and encrypts the
value. The encode/decode round between str and bytes is dropped. -/
def _encrypt (value : String) (password : Option String) (nonce : Nat) :
    Except PyErr FernetToken :=
  match fernetInit password with
  | .error e => .error e
  | .ok k => .ok (fernetEncrypt value k nonce)

/-- Embeds _decrypt (lines 97-109): builds Fernet(password) and decrypts
the record. -/
def _decrypt (tok : FernetToken) (password : Option String) :
    Except PyErr String :=
  match fernetInit password with
  | .error e => .error e
  | .ok k => fernetDecrypt tok k

/-- Association-list lookup, modelling Python dict lookup. -/
def assocLookup {α : Type} : List (String × α) → String → Option α
  | [], _ => none
  | (k', v) :: rest, k => if k' = k then some v else assocLookup rest k

/-- Association-list update, modelling Python dict assignment d[k] = v:
replaces the binding in place when the key is present, appends otherwise. -/
def assocSet {α : Type} : List (String × α) → String → α → List (String × α)
  | [], k, v => [(k, v)]
  | (k', v') :: rest, k, v =>
    if k' = k then (k, v) :: rest else (k', v') :: assocSet rest k v

/-- A stored secrets mapping: secret-key to EncryptedRecord.
JSON/YAML serialization is abstracted away: files store the dictionary. -/
abbrev Dict := List (String × FernetToken)

/-- The filesystem visible to the code under verification: the content of
the master-key file secret.txt (none when absent), and the dictionary files
keyed by path (absent paths raise FileNotFoundError on read). -/
structure FS where
  secretTxt : Option String
  files : List (String × Dict)
  deriving DecidableEq

/-- Reads the dictionary file at a path, none when the file is absent. -/
def lookupFile (fs : FS) (path : String) : Option Dict :=
  assocLookup fs.files path

/-- Writes (creates or overwrites) the dictionary file at a path. -/
def writeFile (fs : FS) (path : String) (d : Dict) : FS :=
  { secretTxt := fs.secretTxt, files := assocSet fs.files path d }

/-- Models Python str.split(".") on the character list: the pieces of the
string between the dots, in order, so a dot-free string yields one piece
and a string with d dots yields d+1 pieces. -/
def splitOnDotAux : List Char → List Char → List (List Char)
  | [], acc => [acc.reverse]
  | c :: rest, acc =>
    if c = '.' then acc.reverse :: splitOnDotAux rest []
    else splitOnDotAux rest (c :: acc)

/-- Models the two-element unpacking name, extension = filename.split(".")
at lines 121 and 144: some pair when the split has exactly two pieces
(exactly one dot in the filename), none meaning a ValueError is raised. -/
def splitExt (filename : String) : Option (String × String) :=
  match splitOnDotAux filename.toList [] with
  | [n, e] => some (⟨n⟩, ⟨e⟩)
  | _ => none

/-- Embeds _store_dictionary (lines 112-138). The extension dispatch uses
two independent if statements with no else: a json extension writes JSON, a
yml/yaml extension writes YAML (the yaml import is modelled as available),
and any other extension falls through both branches and returns without
writing anything. -/
def _store_dictionary (data : Dict) (filename : String) (fs : FS) :
    Except PyErr FS :=
  match splitExt filename with
  | none => .error .valueError
  | some (_, extension) =>
    if extension = "json" then
      .ok (writeFile fs filename data)
    else if extension = "yml" ∨ extension = "yaml" then
      .ok (writeFile fs filename data)
    else
      .ok fs

/-- Embeds _read_dictionary (lines 141-161). A json extension loads JSON, a
yml/yaml extension loads YAML, either raising FileNotFoundError when the
file is absent; any other extension falls through both branches and the
function returns Python None (here Option none). -/
def _read_dictionary (filename : String) (fs : FS) :
    Except PyErr (Option Dict) :=
  match splitExt filename with
  | none => .error .valueError
  | some (_, extension) =>
    if extension = "json" then
      match lookupFile fs filename with
      | none => .error .fileNotFoundError
      | some d => .ok (some d)
    else if extension = "yml" ∨ extension = "yaml" then
      match lookupFile fs filename with
      | none => .error .fileNotFoundError
      | some d => .ok (some d)
    else
      .ok none

/-- Embeds _get_password (lines 54-79). The environment-variable branch
executes os.environ.get(c.io.ENV_VAR_SECRET_NAME, None); neither os nor c
is defined anywhere in the module, so evaluating that expression raises
NameError regardless of the process environment, and the caller-supplied
environ_var_name is never consulted. The file branch reads the key file,
strips newlines, and on IOError (file absent) prints a message and returns
None. save_secret and get_secret always call it with default arguments, so
the file read always targets secret.txt, modelled by the secretTxt field. -/
def _get_password (fs : FS) (environVarName : Option String) :
    Except PyErr (Option String) :=
  match environVarName with
  | some _ => .error .nameError
  | none =>
    match fs.secretTxt with
    | some s => .ok (some (s.replace "\n" ""))
    | none => .ok none

/-- Embeds the password-defaulting lines shared by save_secret (175-176)
and get_secret (202-203): when the caller passed no password, resolve via
_get_password with default arguments. -/
def resolvePassword (fs : FS) (password : Option String) :
    Except PyErr (Option String) :=
  match password with
  | none => _get_password fs none
  | some p => .ok (some p)

/-- Embeds the shared try/except block of save_secret (179-183) and
get_secret (206-210): read the dictionary, turning FileNotFoundError into
an empty dict; every other exception propagates. -/
def loadData (secretsFile : String) (fs : FS) : Except PyErr (Option Dict) :=
  match _read_dictionary secretsFile fs with
  | .error .fileNotFoundError => .ok (some [])
  | .error e => .error e
  | .ok d => .ok d

/-- Embeds save_secret (lines 164-189): resolve the password, load the
existing dictionary (empty when the file is absent), encrypt the value
(Python evaluates the right-hand side of data[key] = _encrypt(...) first),
assign into the dictionary (TypeError when the loaded data is Python None,
which happens for an unsupported extension), and store the whole
dictionary back. -/
def save_secret (key value : String) (password : Option String)
    (secretsFile : String) (fs : FS) (nonce : Nat) : Except PyErr FS :=
  match resolvePassword fs password with
  | .error e => .error e
  | .ok pw =>
    match loadData secretsFile fs with
    | .error e => .error e
    | .ok data =>
      match _encrypt value pw nonce with
      | .error e => .error e
      | .ok tok =>
        match data with
        | none => .error .typeError
        | some d => _store_dictionary (assocSet d key tok) secretsFile fs

/-- Embeds get_secret (lines 192-216): resolve the password, load the
dictionary (empty when the file is absent; the membership test key not in
data raises TypeError when data is Python None), return Python None with a
message when the key is absent, otherwise decrypt the stored record. -/
def get_secret (key : String) (password : Option String)
    (secretsFile : String) (fs : FS) : Except PyErr (Option String) :=
  match resolvePassword fs password with
  | .error e => .error e
  | .ok pw =>
    match loadData secretsFile fs with
    | .error e => .error e
    | .ok data =>
      match data with
      | none => .error .typeError
      | some d =>
        match assocLookup d key with
        | none => .ok none
        | some tok =>
          match _decrypt tok pw with
          | .error e => .error e
          | .ok s => .ok (some s)

/-! ## Helper lemmas -/

/-- Updating a binding and then looking it up yields the new value. -/
theorem assocLookup_assocSet_self {α : Type} (l : List (String × α)) (k : String) (v : α) :
    assocLookup (assocSet l k v) k = some v := by
  induction l with
  | nil => simp [assocSet, assocLookup]
  | cons hd tl ih =>
    obtain ⟨k0, v0⟩ := hd
    by_cases h0 : k0 = k
    · simp [assocSet, h0, assocLookup]
    · simp [assocSet, h0, assocLookup, ih]

/-- Updating one binding leaves the lookup of every other key unchanged. -/
theorem assocLookup_assocSet_ne {α : Type} (l : List (String × α)) (k k' : String) (v : α)
    (h : k' ≠ k) : assocLookup (assocSet l k v) k' = assocLookup l k' := by
  induction l with
  | nil => simp [assocSet, assocLookup, Ne.symm h]
  | cons hd tl ih =>
    obtain ⟨k0, v0⟩ := hd
    by_cases h0 : k0 = k
    · subst h0
      simp [assocSet, assocLookup, Ne.symm h]
    · simp [assocSet, h0, assocLookup, ih]

/-- On a supported extension, _read_dictionary returns the stored
dictionary, or FileNotFoundError when the path is absent. -/
theorem read_dictionary_supported (path : String) (fs : FS) (nm e : String)
    (hs : splitExt path = some (nm, e)) (he : e = "json" ∨ e = "yml" ∨ e = "yaml") :
    _read_dictionary path fs =
      match lookupFile fs path with
      | none => Except.error PyErr.fileNotFoundError
      | some d => Except.ok (some d) := by
  unfold _read_dictionary
  rw [hs]
  rcases he with h | h | h <;> subst h <;> simp

/-- On a supported extension, _store_dictionary overwrites the file. -/
theorem store_dictionary_supported (data : Dict) (path : String) (fs : FS) (nm e : String)
    (hs : splitExt path = some (nm, e)) (he : e = "json" ∨ e = "yml" ∨ e = "yaml") :
    _store_dictionary data path fs = Except.ok (writeFile fs path data) := by
  unfold _store_dictionary
  rw [hs]
  rcases he with h | h | h <;> subst h <;> simp

/-- Password resolution never raises when called with default arguments:
the environment branch is not taken and the file branch returns None on a
missing key file rather than raising. -/
theorem resolvePassword_ok (fs : FS) (p : Option String) :
    ∃ q, resolvePassword fs p = Except.ok q := by
  cases p with
  | none =>
    cases h : fs.secretTxt with
    | none => exact ⟨none, by simp [resolvePassword, _get_password, h]⟩
    | some s => exact ⟨some (s.replace "\n" ""), by simp [resolvePassword, _get_password, h]⟩
  | some q => exact ⟨some q, rfl⟩

/-- The split of Python str.split(".") yields one piece more than the
number of dots. -/
theorem splitOnDotAux_length (cs acc : List Char) :
    (splitOnDotAux cs acc).length = cs.count '.' + 1 := by
  induction cs generalizing acc with
  | nil => simp [splitOnDotAux]
  | cons c rest ih =>
    by_cases h : c = '.'
    · subst h
      simp [splitOnDotAux, ih, List.count_cons]
    · simp [splitOnDotAux, h, ih, List.count_cons]

/-- The two-element unpacking of filename.split(".") fails (ValueError)
exactly when the filename does not contain exactly one dot. -/
theorem splitExt_eq_none_iff (path : String) :
    splitExt path = none ↔ path.toList.count '.' ≠ 1 := by
  have hlen := splitOnDotAux_length path.toList []
  unfold splitExt
  rcases hl : splitOnDotAux path.toList [] with _ | ⟨a, _ | ⟨b, _ | ⟨c, tl⟩⟩⟩ <;>
    rw [hl] at hlen <;> simp at hlen <;> simp <;> omega

/-- On a missing mapping file with a supported extension, get_secret falls
back to the empty mapping and reports not-found for every key and any
password argument. -/
theorem get_secret_missing_file (fs : FS) (key path nm e : String) (p : Option String)
    (hs : splitExt path = some (nm, e)) (hsup : e = "json" ∨ e = "yml" ∨ e = "yaml")
    (hfile : lookupFile fs path = none) :
    get_secret key p path fs = Except.ok none := by
  obtain ⟨q, hq⟩ := resolvePassword_ok fs p
  have hread := read_dictionary_supported path fs nm e hs hsup
  have hload : loadData path fs = Except.ok (some []) := by
    unfold loadData
    rw [hread, hfile]
  unfold get_secret
  rw [hq, hload]
  simp [assocLookup]

/-- When the mapping exists but lacks the requested key, get_secret reports
not-found for any password argument, without ever invoking decryption. -/
theorem get_secret_absent_key (fs : FS) (key path nm e : String) (d : Dict)
    (p : Option String)
    (hs : splitExt path = some (nm, e)) (hsup : e = "json" ∨ e = "yml" ∨ e = "yaml")
    (hd : lookupFile fs path = some d) (hlk : assocLookup d key = none) :
    get_secret key p path fs = Except.ok none := by
  obtain ⟨q, hq⟩ := resolvePassword_ok fs p
  have hread := read_dictionary_supported path fs nm e hs hsup
  have hload : loadData path fs = Except.ok (some d) := by
    unfold loadData
    rw [hread, hd]
  unfold get_secret
  rw [hq, hload]
  simp [hlk]

/-! ## Claims -/

/-- C1: for every plaintext string s and valid master key k, decrypting the
record produced by encrypting s with k, using the same key k, returns
exactly s. The Fernet nonce is an arbitrary explicit parameter. -/
theorem decrypt_encrypt_roundtrip (s k : String) (n : Nat) (h : validKey k = true) :
    Except.bind (_encrypt s (some k) n) (fun t => _decrypt t (some k)) = Except.ok s := by
  simp [_encrypt, fernetInit, h, _decrypt, fernetEncrypt, fernetDecrypt, Except.bind]

/-- Witness for C1 at a concrete plaintext and key. -/
theorem decrypt_encrypt_roundtrip_witness :
    validKey "AAAAAAAAAAAAAAAAAAAAAAAAAAAAAAAAAAAAAAAAAAAA" = true ∧
    Except.bind (_encrypt "s3cr3t" (some "AAAAAAAAAAAAAAAAAAAAAAAAAAAAAAAAAAAAAAAAAAAA") 7)
        (fun t => _decrypt t (some "AAAAAAAAAAAAAAAAAAAAAAAAAAAAAAAAAAAAAAAAAAAA")) =
      Except.ok "s3cr3t" :=
  ⟨by decide, decrypt_encrypt_roundtrip "s3cr3t" "AAAAAAAAAAAAAAAAAAAAAAAAAAAAAAAAAAAAAAAAAAAA" 7 (by decide)⟩

/-- C5: for every plaintext s and distinct valid keys k1 and k2, decrypting
the record encrypted under k1 with k2 fails with the integrity error
(Fernet InvalidToken) instead of returning a value. -/
theorem decrypt_wrong_key (s k1 k2 : String) (n : Nat)
    (h1 : validKey k1 = true) (h2 : validKey k2 = true) (hne : k1 ≠ k2) :
    Except.bind (_encrypt s (some k1) n) (fun t => _decrypt t (some k2)) =
      Except.error PyErr.integrityError := by
  simp [_encrypt, fernetInit, h1, h2, _decrypt, fernetEncrypt, fernetDecrypt, hne, Except.bind]

/-- Witness for C5 at a concrete plaintext and two concrete distinct keys. -/
theorem decrypt_wrong_key_witness :
    validKey "AAAAAAAAAAAAAAAAAAAAAAAAAAAAAAAAAAAAAAAAAAAA" = true ∧
    validKey "BBBBBBBBBBBBBBBBBBBBBBBBBBBBBBBBBBBBBBBBBBBB" = true ∧
    "AAAAAAAAAAAAAAAAAAAAAAAAAAAAAAAAAAAAAAAAAAAA" ≠ "BBBBBBBBBBBBBBBBBBBBBBBBBBBBBBBBBBBBBBBBBBBB" ∧
    Except.bind (_encrypt "s3cr3t" (some "AAAAAAAAAAAAAAAAAAAAAAAAAAAAAAAAAAAAAAAAAAAA") 7)
        (fun t => _decrypt t (some "BBBBBBBBBBBBBBBBBBBBBBBBBBBBBBBBBBBBBBBBBBBB")) =
      Except.error PyErr.integrityError :=
  ⟨by decide, by decide, by decide,
    decrypt_wrong_key "s3cr3t" "AAAAAAAAAAAAAAAAAAAAAAAAAAAAAAAAAAAAAAAAAAAA"
      "BBBBBBBBBBBBBBBBBBBBBBBBBBBBBBBBBBBBBBBBBBBB" 7 (by decide) (by decide) (by decide)⟩

/-- C8: encrypting the same plaintext twice with the same valid key but
distinct embedded nonces yields two different ciphertext records, yet each
record decrypts back to the original plaintext under that key. -/
theorem encrypt_nondeterministic (s k : String) (n1 n2 : Nat)
    (h : validKey k = true) (hn : n1 ≠ n2) :
    _encrypt s (some k) n1 ≠ _encrypt s (some k) n2 ∧
    Except.bind (_encrypt s (some k) n1) (fun t => _decrypt t (some k)) = Except.ok s ∧
    Except.bind (_encrypt s (some k) n2) (fun t => _decrypt t (some k)) = Except.ok s := by
  refine ⟨?_, decrypt_encrypt_roundtrip s k n1 h, decrypt_encrypt_roundtrip s k n2 h⟩
  simp [_encrypt, fernetInit, h, fernetEncrypt, FernetToken.mk.injEq]
  intro hEq
  exact absurd hEq hn

/-- Witness for C8 at a concrete plaintext, key and pair of nonces. -/
theorem encrypt_nondeterministic_witness :
    validKey "AAAAAAAAAAAAAAAAAAAAAAAAAAAAAAAAAAAAAAAAAAAA" = true ∧ (3 : Nat) ≠ 9 ∧
    (_encrypt "s3cr3t" (some "AAAAAAAAAAAAAAAAAAAAAAAAAAAAAAAAAAAAAAAAAAAA") 3 ≠
      _encrypt "s3cr3t" (some "AAAAAAAAAAAAAAAAAAAAAAAAAAAAAAAAAAAAAAAAAAAA") 9 ∧
    Except.bind (_encrypt "s3cr3t" (some "AAAAAAAAAAAAAAAAAAAAAAAAAAAAAAAAAAAAAAAAAAAA") 3)
        (fun t => _decrypt t (some "AAAAAAAAAAAAAAAAAAAAAAAAAAAAAAAAAAAAAAAAAAAA")) = Except.ok "s3cr3t" ∧
    Except.bind (_encrypt "s3cr3t" (some "AAAAAAAAAAAAAAAAAAAAAAAAAAAAAAAAAAAAAAAAAAAA") 9)
        (fun t => _decrypt t (some "AAAAAAAAAAAAAAAAAAAAAAAAAAAAAAAAAAAAAAAAAAAA")) = Except.ok "s3cr3t") :=
  ⟨by decide, by decide,
    encrypt_nondeterministic "s3cr3t" "AAAAAAAAAAAAAAAAAAAAAAAAAAAAAAAAAAAAAAAAAAAA" 3 9
      (by decide) (by decide)⟩

/-- C2: save_secret with a valid supplied key and a supported mapping path
rewrites the file with the previously stored mapping (the empty mapping
when the file was missing) updated so that the saved key maps to the newly
encrypted record: the saved key is overwritten (last-write-wins), the
stored file afterwards holds exactly the updated mapping, and the lookup
of every other key is unchanged. -/
theorem save_secret_merge (fs : FS) (key value pw path : String) (n : Nat)
    (hk : validKey pw = true)
    (he : ∃ nm e, splitExt path = some (nm, e) ∧ (e = "json" ∨ e = "yml" ∨ e = "yaml")) :
    save_secret key value (some pw) path fs n =
      Except.ok (writeFile fs path
        (assocSet ((lookupFile fs path).getD []) key (fernetEncrypt value pw n))) ∧
    lookupFile (writeFile fs path
        (assocSet ((lookupFile fs path).getD []) key (fernetEncrypt value pw n))) path =
      some (assocSet ((lookupFile fs path).getD []) key (fernetEncrypt value pw n)) ∧
    assocLookup (assocSet ((lookupFile fs path).getD []) key (fernetEncrypt value pw n)) key =
      some (fernetEncrypt value pw n) ∧
    ∀ k', k' ≠ key →
      assocLookup (assocSet ((lookupFile fs path).getD []) key (fernetEncrypt value pw n)) k' =
        assocLookup ((lookupFile fs path).getD []) k' := by
  obtain ⟨nm, e, hs, hsup⟩ := he
  refine ⟨?_, assocLookup_assocSet_self _ _ _, assocLookup_assocSet_self _ _ _,
    fun k' hk' => assocLookup_assocSet_ne _ _ _ _ hk'⟩
  have hread := read_dictionary_supported path fs nm e hs hsup
  have hstore := store_dictionary_supported
    (assocSet ((lookupFile fs path).getD []) key (fernetEncrypt value pw n)) path fs nm e hs hsup
  unfold save_secret
  have hq : resolvePassword fs (some pw) = Except.ok (some pw) := rfl
  rw [hq]
  cases hfile : lookupFile fs path with
  | none =>
    rw [hfile] at hstore
    have hload : loadData path fs = Except.ok (some []) := by
      unfold loadData
      rw [hread, hfile]
    rw [hload]
    simpa [_encrypt, fernetInit, hk] using hstore
  | some d =>
    rw [hfile] at hstore
    have hload : loadData path fs = Except.ok (some d) := by
      unfold loadData
      rw [hread, hfile]
    rw [hload]
    simpa [_encrypt, fernetInit, hk] using hstore

/-- Witness for C2: saving key a into a mapping that already holds key b
overwrites the stored file with the merged mapping. -/
theorem save_secret_merge_witness :
    validKey "AAAAAAAAAAAAAAAAAAAAAAAAAAAAAAAAAAAAAAAAAAAA" = true ∧
    save_secret "a" "1" (some "AAAAAAAAAAAAAAAAAAAAAAAAAAAAAAAAAAAAAAAAAAAA") "secrets.json"
        ⟨none, [("secrets.json", [("b", fernetEncrypt "2" "AAAAAAAAAAAAAAAAAAAAAAAAAAAAAAAAAAAAAAAAAAAA" 1)])]⟩ 5 =
      Except.ok (writeFile ⟨none, [("secrets.json", [("b", fernetEncrypt "2" "AAAAAAAAAAAAAAAAAAAAAAAAAAAAAAAAAAAAAAAAAAAA" 1)])]⟩ "secrets.json"
        (assocSet ((lookupFile ⟨none, [("secrets.json", [("b", fernetEncrypt "2" "AAAAAAAAAAAAAAAAAAAAAAAAAAAAAAAAAAAAAAAAAAAA" 1)])]⟩ "secrets.json").getD [])
          "a" (fernetEncrypt "1" "AAAAAAAAAAAAAAAAAAAAAAAAAAAAAAAAAAAAAAAAAAAA" 5))) :=
  ⟨by decide,
    (save_secret_merge
      ⟨none, [("secrets.json", [("b", fernetEncrypt "2" "AAAAAAAAAAAAAAAAAAAAAAAAAAAAAAAAAAAAAAAAAAAA" 1)])]⟩
      "a" "1" "AAAAAAAAAAAAAAAAAAAAAAAAAAAAAAAAAAAAAAAAAAAA" "secrets.json" 5 (by decide)
      ⟨"secrets", "json", by decide, Or.inl rfl⟩).1⟩

/-- C4: get_secret returns the explicit non-error not-found result (Python
None) both when the mapping file is absent at the supported path, treated
as an empty mapping, and when the mapping exists but lacks the requested
key, for any password argument. -/
theorem get_secret_not_found (fs : FS) (key path nm e : String) (p : Option String)
    (hs : splitExt path = some (nm, e)) (hsup : e = "json" ∨ e = "yml" ∨ e = "yaml")
    (h : lookupFile fs path = none ∨
         ∃ d, lookupFile fs path = some d ∧ assocLookup d key = none) :
    get_secret key p path fs = Except.ok none := by
  rcases h with h | ⟨d, hd, hlk⟩
  · exact get_secret_missing_file fs key path nm e p hs hsup h
  · exact get_secret_absent_key fs key path nm e d p hs hsup hd hlk

/-- Witness for C4: a missing mapping file and a mapping lacking the key
both give the not-found result. -/
theorem get_secret_not_found_witness :
    splitExt "secrets.json" = some ("secrets", "json") ∧
    lookupFile ⟨none, []⟩ "secrets.json" = none ∧
    get_secret "missing" (some "AAAAAAAAAAAAAAAAAAAAAAAAAAAAAAAAAAAAAAAAAAAA") "secrets.json" ⟨none, []⟩ =
      Except.ok none :=
  ⟨by decide, by decide,
    get_secret_not_found ⟨none, []⟩ "missing" "secrets.json" "secrets" "json"
      (some "AAAAAAAAAAAAAAAAAAAAAAAAAAAAAAAAAAAAAAAAAAAA") (by decide) (Or.inl rfl)
      (Or.inl (by decide))⟩

/-- C9: on a secrets-file path whose name does not contain exactly one dot,
the two-element unpacking of filename.split in both _read_dictionary and
_store_dictionary fails with ValueError, and save_secret and get_secret
propagate that ValueError (the FileNotFoundError handler does not catch
it), failing before any mapping content is read or written. -/
theorem bad_path_value_error (fs : FS) (d : Dict) (key value : String)
    (p : Option String) (path : String) (n : Nat)
    (h : path.toList.count '.' ≠ 1) :
    _read_dictionary path fs = Except.error PyErr.valueError ∧
    _store_dictionary d path fs = Except.error PyErr.valueError ∧
    save_secret key value p path fs n = Except.error PyErr.valueError ∧
    get_secret key p path fs = Except.error PyErr.valueError := by
  have hsplit : splitExt path = none := (splitExt_eq_none_iff path).mpr h
  have hr : _read_dictionary path fs = Except.error PyErr.valueError := by
    unfold _read_dictionary
    rw [hsplit]
  have hst : _store_dictionary d path fs = Except.error PyErr.valueError := by
    unfold _store_dictionary
    rw [hsplit]
  have hload : loadData path fs = Except.error PyErr.valueError := by
    unfold loadData
    rw [hr]
  obtain ⟨q, hq⟩ := resolvePassword_ok fs p
  refine ⟨hr, hst, ?_, ?_⟩
  · unfold save_secret
    rw [hq, hload]
  · unfold get_secret
    rw [hq, hload]

/-- Witness for C9 on the path my.secrets.json, which holds two dots. -/
theorem bad_path_value_error_witness :
    ("my.secrets.json".toList.count '.' ≠ 1) ∧
    save_secret "k" "v" (some "AAAAAAAAAAAAAAAAAAAAAAAAAAAAAAAAAAAAAAAAAAAA") "my.secrets.json"
        ⟨none, []⟩ 0 = Except.error PyErr.valueError ∧
    get_secret "k" (some "AAAAAAAAAAAAAAAAAAAAAAAAAAAAAAAAAAAAAAAAAAAA") "my.secrets.json"
        ⟨none, []⟩ = Except.error PyErr.valueError :=
  ⟨by decide,
    (bad_path_value_error ⟨none, []⟩ [] "k" "v"
      (some "AAAAAAAAAAAAAAAAAAAAAAAAAAAAAAAAAAAAAAAAAAAA") "my.secrets.json" 0 (by decide)).2.2.1,
    (bad_path_value_error ⟨none, []⟩ [] "k" "v"
      (some "AAAAAAAAAAAAAAAAAAAAAAAAAAAAAAAAAAAAAAAAAAAA") "my.secrets.json" 0 (by decide)).2.2.2⟩

/-- C10: when the stored mapping does not contain the requested key,
get_secret returns the not-found result without invoking decryption, so
the result is identical for any two supplied password arguments, including
an invalid string or the unresolvable Python None. -/
theorem get_secret_password_independent (fs : FS) (key path nm e : String) (d : Dict)
    (p1 p2 : Option String)
    (hs : splitExt path = some (nm, e)) (hsup : e = "json" ∨ e = "yml" ∨ e = "yaml")
    (hd : lookupFile fs path = some d) (hlk : assocLookup d key = none) :
    get_secret key p1 path fs = Except.ok none ∧
    get_secret key p2 path fs = Except.ok none ∧
    get_secret key p1 path fs = get_secret key p2 path fs := by
  have h1 := get_secret_absent_key fs key path nm e d p1 hs hsup hd hlk
  have h2 := get_secret_absent_key fs key path nm e d p2 hs hsup hd hlk
  exact ⟨h1, h2, h1.trans h2.symm⟩

/-- Witness for C10: an invalid password and the unresolvable None password
give the same not-found result on a mapping lacking the key. -/
theorem get_secret_password_independent_witness :
    splitExt "secrets.json" = some ("secrets", "json") ∧
    lookupFile ⟨none, [("secrets.json", [("b", fernetEncrypt "2" "AAAAAAAAAAAAAAAAAAAAAAAAAAAAAAAAAAAAAAAAAAAA" 1)])]⟩ "secrets.json" =
      some [("b", fernetEncrypt "2" "AAAAAAAAAAAAAAAAAAAAAAAAAAAAAAAAAAAAAAAAAAAA" 1)] ∧
    get_secret "missing" (some "not-a-key") "secrets.json"
        ⟨none, [("secrets.json", [("b", fernetEncrypt "2" "AAAAAAAAAAAAAAAAAAAAAAAAAAAAAAAAAAAAAAAAAAAA" 1)])]⟩ =
      Except.ok none ∧
    get_secret "missing" none "secrets.json"
        ⟨none, [("secrets.json", [("b", fernetEncrypt "2" "AAAAAAAAAAAAAAAAAAAAAAAAAAAAAAAAAAAAAAAAAAAA" 1)])]⟩ =
      Except.ok none :=
  ⟨by decide, by decide,
    (get_secret_password_independent
      ⟨none, [("secrets.json", [("b", fernetEncrypt "2" "AAAAAAAAAAAAAAAAAAAAAAAAAAAAAAAAAAAAAAAAAAAA" 1)])]⟩
      "missing" "secrets.json" "secrets" "json"
      [("b", fernetEncrypt "2" "AAAAAAAAAAAAAAAAAAAAAAAAAAAAAAAAAAAAAAAAAAAA" 1)]
      (some "not-a-key") none (by decide) (Or.inl rfl) (by decide) (by decide)).1,
    (get_secret_password_independent
      ⟨none, [("secrets.json", [("b", fernetEncrypt "2" "AAAAAAAAAAAAAAAAAAAAAAAAAAAAAAAAAAAAAAAAAAAA" 1)])]⟩
      "missing" "secrets.json" "secrets" "json"
      [("b", fernetEncrypt "2" "AAAAAAAAAAAAAAAAAAAAAAAAAAAAAAAAAAAAAAAAAAAA" 1)]
      (some "not-a-key") none (by decide) (Or.inl rfl) (by decide) (by decide)).2.1⟩

/-- C3 counterexample: with the key file absent, master-key resolution
yields no key, yet get_secret on a mapping lacking the requested key
succeeds with the normal not-found result — the operation does not fail at
all, let alone with a KeyResolutionError (no such error exists in the
code). -/
theorem resolution_failure_not_fatal_counterexample :
    _get_password ⟨none, [("secrets.json", [])]⟩ none = Except.ok none ∧
    get_secret "missing" none "secrets.json" ⟨none, [("secrets.json", [])]⟩ =
      Except.ok none :=
  ⟨rfl, rfl⟩

/-- C3 amended: when save_secret or get_secret runs without a supplied
password and the key file is absent, _get_password returns None without
raising; save_secret then goes on to load the mapping and fails with
TypeError once the absent key reaches the Fernet constructor inside
_encrypt, so the mapping file is never written; get_secret fails the same
way only when the requested key is present, and otherwise returns the
normal not-found result. No fallback key is ever substituted. -/
theorem missing_key_file_behavior (fs : FS) (key value path nm e : String) (n : Nat)
    (hsec : fs.secretTxt = none)
    (hs : splitExt path = some (nm, e)) (hsup : e = "json" ∨ e = "yml" ∨ e = "yaml") :
    _get_password fs none = Except.ok none ∧
    save_secret key value none path fs n = Except.error PyErr.typeError ∧
    (∀ d tok, lookupFile fs path = some d → assocLookup d key = some tok →
      get_secret key none path fs = Except.error PyErr.typeError) := by
  have hgp : _get_password fs none = Except.ok none := by
    simp [_get_password, hsec]
  have hq : resolvePassword fs none = Except.ok none := by
    unfold resolvePassword
    rw [hgp]
  have hread := read_dictionary_supported path fs nm e hs hsup
  refine ⟨hgp, ?_, ?_⟩
  · unfold save_secret
    rw [hq]
    cases hfile : lookupFile fs path with
    | none =>
      have hload : loadData path fs = Except.ok (some []) := by
        unfold loadData
        rw [hread, hfile]
      rw [hload]
      simp [_encrypt, fernetInit]
    | some d =>
      have hload : loadData path fs = Except.ok (some d) := by
        unfold loadData
        rw [hread, hfile]
      rw [hload]
      simp [_encrypt, fernetInit]
  · intro d tok hd hlk
    have hload : loadData path fs = Except.ok (some d) := by
      unfold loadData
      rw [hread, hd]
    unfold get_secret
    rw [hq, hload]
    simp [hlk, _decrypt, fernetInit]

/-- Witness for the amended C3: with the key file absent, saving into a
fresh secrets.json fails with TypeError and writes nothing. -/
theorem missing_key_file_behavior_witness :
    (⟨none, []⟩ : FS).secretTxt = none ∧
    splitExt "secrets.json" = some ("secrets", "json") ∧
    _get_password ⟨none, []⟩ none = Except.ok none ∧
    save_secret "k" "v" none "secrets.json" ⟨none, []⟩ 0 = Except.error PyErr.typeError :=
  ⟨rfl, by decide,
    (missing_key_file_behavior ⟨none, []⟩ "k" "v" "secrets.json" "secrets" "json" 0
      rfl (by decide) (Or.inl rfl)).1,
    (missing_key_file_behavior ⟨none, []⟩ "k" "v" "secrets.json" "secrets" "json" 0
      rfl (by decide) (Or.inl rfl)).2.1⟩

/-- C6 counterexample: on the unsupported extension txt, _store_dictionary
returns successfully leaving the filesystem untouched and _read_dictionary
returns Python None — neither raises any UnsupportedFormatError (no such
error exists in the code). -/
theorem unsupported_extension_no_error_counterexample :
    _store_dictionary [] "x.txt" ⟨none, []⟩ = Except.ok ⟨none, []⟩ ∧
    _read_dictionary "x.txt" ⟨none, []⟩ = Except.ok none :=
  ⟨rfl, rfl⟩

/-- C6 amended: saving and loading dispatch on the path's extension —
json is handled as JSON and yml or yaml as YAML — but any other extension
is skipped silently: _store_dictionary returns without writing anything,
_read_dictionary returns Python None, and the enclosing save_secret and
get_secret then fail with TypeError when they use that None as a
dictionary. -/
theorem extension_dispatch (fs : FS) (d : Dict) (key value pw path nm e : String) (n : Nat)
    (hk : validKey pw = true)
    (hs : splitExt path = some (nm, e)) :
    (e = "json" ∨ e = "yml" ∨ e = "yaml" →
      _store_dictionary d path fs = Except.ok (writeFile fs path d) ∧
      _read_dictionary path fs =
        match lookupFile fs path with
        | none => Except.error PyErr.fileNotFoundError
        | some d0 => Except.ok (some d0)) ∧
    (e ≠ "json" → e ≠ "yml" → e ≠ "yaml" →
      _store_dictionary d path fs = Except.ok fs ∧
      _read_dictionary path fs = Except.ok none ∧
      save_secret key value (some pw) path fs n = Except.error PyErr.typeError ∧
      get_secret key (some pw) path fs = Except.error PyErr.typeError) := by
  constructor
  · intro hsup
    exact ⟨store_dictionary_supported d path fs nm e hs hsup,
      read_dictionary_supported path fs nm e hs hsup⟩
  · intro h1 h2 h3
    have hst : _store_dictionary d path fs = Except.ok fs := by
      unfold _store_dictionary
      rw [hs]
      simp [h1, h2, h3]
    have hr : _read_dictionary path fs = Except.ok none := by
      unfold _read_dictionary
      rw [hs]
      simp [h1, h2, h3]
    have hload : loadData path fs = Except.ok none := by
      unfold loadData
      rw [hr]
    have hq : resolvePassword fs (some pw) = Except.ok (some pw) := rfl
    refine ⟨hst, hr, ?_, ?_⟩
    · unfold save_secret
      rw [hq, hload]
      simp [_encrypt, fernetInit, hk]
    · unfold get_secret
      rw [hq, hload]

/-- Witness for the amended C6: on the unsupported path x.txt, storing is a
silent no-op, reading gives Python None, and save_secret fails with
TypeError. -/
theorem extension_dispatch_witness :
    validKey "AAAAAAAAAAAAAAAAAAAAAAAAAAAAAAAAAAAAAAAAAAAA" = true ∧
    splitExt "x.txt" = some ("x", "txt") ∧
    _store_dictionary [] "x.txt" ⟨none, []⟩ = Except.ok ⟨none, []⟩ ∧
    _read_dictionary "x.txt" ⟨none, []⟩ = Except.ok none ∧
    save_secret "k" "v" (some "AAAAAAAAAAAAAAAAAAAAAAAAAAAAAAAAAAAAAAAAAAAA") "x.txt"
        ⟨none, []⟩ 0 = Except.error PyErr.typeError :=
  ⟨by decide, by decide,
    ((extension_dispatch ⟨none, []⟩ [] "k" "v" "AAAAAAAAAAAAAAAAAAAAAAAAAAAAAAAAAAAAAAAAAAAA"
        "x.txt" "x" "txt" 0 (by decide) (by decide)).2
      (by decide) (by decide) (by decide)).1,
    ((extension_dispatch ⟨none, []⟩ [] "k" "v" "AAAAAAAAAAAAAAAAAAAAAAAAAAAAAAAAAAAAAAAAAAAA"
        "x.txt" "x" "txt" 0 (by decide) (by decide)).2
      (by decide) (by decide) (by decide)).2.1,
    ((extension_dispatch ⟨none, []⟩ [] "k" "v" "AAAAAAAAAAAAAAAAAAAAAAAAAAAAAAAAAAAAAAAAAAAA"
        "x.txt" "x" "txt" 0 (by decide) (by decide)).2
      (by decide) (by decide) (by decide)).2.2.1⟩

/-- C7: the environment-variable branch of _get_password raises NameError
whenever a variable name is supplied, for every filesystem state: the
module never imports os nor defines c, so the lookup expression fails
before reading any environment variable, the caller-supplied name is never
consulted, and no KeyNotFoundError-style no-key report is produced. -/
theorem get_password_env_branch_raises_nameerror (fs : FS) (name : String) :
    _get_password fs (some name) = Except.error PyErr.nameError := rfl

end VCrypt
